import Mathlib

/-!
Verification of the screen-monitoring core of the Pokemon Radar Alert
repository: a shallow embedding of `src/monitor.py` (capture and pixel
classification), the detection loop of `src/gui.py` (`monitor_screen`),
and the configuration validation of `src/gui.py`
(`validate_inputs` / `validate_configuration` / `start_monitoring`).

Machine pixels are 8-bit channel values, modelled as `Nat`; percentages
and sleep durations are modelled as `Rat`.  Python code that can raise
is modelled with `Except` / explicit failure inputs.
-/

/-- An RGB pixel: (R, G, B) channel values (0..255 in real frames). -/
abbrev Pixel := Nat × Nat × Nat

/-- A captured frame.  `np.array(image)` of an RGB PIL image has shape
(height, width, 3); we keep the pixels as a flat row-major list together
with the shape product invariant used by every classifier
(`total_pixels = shape[0] * shape[1]`). -/
structure Frame where
  width : Nat
  height : Nat
  pixels : List Pixel
  wf : pixels.length = width * height

/-- `total_pixels` as computed in `monitor.py` (`shape[0] * shape[1]`,
equivalently `gray.size`). -/
def totalPixels (f : Frame) : Nat := f.width * f.height

/-- `Image.new("RGB", (width, height), (0, 0, 0))`: the black fallback frame. -/
def blackFrame (w h : Nat) : Frame :=
  ⟨w, h, List.replicate (w * h) (0, 0, 0), by simp⟩

/-- An all-white frame of the given dimensions (used as a concrete test frame). -/
def whiteFrame (w h : Nat) : Frame :=
  ⟨w, h, List.replicate (w * h) (255, 255, 255), by simp⟩

/-- `np.all(img_array < 10, axis=2)` applied to one pixel: every channel
below the near-black cutoff 10. -/
def isNearBlack (p : Pixel) : Bool :=
  decide (p.1 < 10) && decide (p.2.1 < 10) && decide (p.2.2 < 10)

/-- `BLACK_PIXEL_WARNING_THRESHOLD` from `config.py`. -/
def BLACK_PIXEL_WARNING_THRESHOLD : ℚ := 95

/-- `ScreenMonitor.analyze_screenshot_quality` from `monitor.py`:
`black_percentage = black_pixels / total_pixels * 100`,
`is_valid = black_percentage <= BLACK_PIXEL_WARNING_THRESHOLD`.
For a zero-area frame the NumPy division yields NaN (`is_valid` false,
no rational percentage); that degenerate, unreachable case is modelled
by the except-path convention `(False, 100.0)` of the source. -/
def analyze_screenshot_quality (f : Frame) : Bool × ℚ :=
  if f.width * f.height = 0 then (false, 100)
  else
    let black_percentage : ℚ :=
      (f.pixels.countP isNearBlack : ℚ) / ((f.width * f.height : ℕ) : ℚ) * 100
    (decide (black_percentage ≤ BLACK_PIXEL_WARNING_THRESHOLD), black_percentage)

/-- `cv2.cvtColor(img, cv2.COLOR_RGB2GRAY)` on one 8-bit pixel: OpenCV's
fixed-point luminance `(4899*R + 9617*G + 1868*B + 2^13) >> 14`. -/
def grayOf (p : Pixel) : Nat :=
  (4899 * p.1 + 9617 * p.2.1 + 1868 * p.2.2 + 8192) / 16384

/-- `ScreenMonitor.detect_white_pixels` from `monitor.py`:
percentage of pixels whose gray value is `>= threshold`.
(For an empty frame `cv2.cvtColor` raises and the except-path returns 0.0;
here the division by zero likewise yields 0.) -/
def detect_white_pixels (f : Frame) (threshold : ℤ) : ℚ :=
  (f.pixels.countP (fun p => decide (threshold ≤ (grayOf p : ℤ))) : ℚ)
    / ((totalPixels f : ℕ) : ℚ) * 100

/-- `BLUE_LOWER = np.array([0, 70, 75])` from `monitor.py`. -/
def BLUE_LOWER : Pixel := (0, 70, 75)

/-- `BLUE_UPPER = np.array([15, 155, 155])` from `monitor.py`. -/
def BLUE_UPPER : Pixel := (15, 155, 155)

/-- `cv2.inRange(img_array, BLUE_LOWER, BLUE_UPPER)` on one pixel of the
RGB array: each channel inclusively between the corresponding bounds.
Note the source applies this to the RGB array directly — there is no
color-space conversion in `detect_blue_pixels`. -/
def rgbInBand (p : Pixel) : Bool :=
  decide (BLUE_LOWER.1 ≤ p.1) && decide (p.1 ≤ BLUE_UPPER.1) &&
  decide (BLUE_LOWER.2.1 ≤ p.2.1) && decide (p.2.1 ≤ BLUE_UPPER.2.1) &&
  decide (BLUE_LOWER.2.2 ≤ p.2.2) && decide (p.2.2 ≤ BLUE_UPPER.2.2)

/-- `ScreenMonitor.detect_blue_pixels` from `monitor.py`: percentage of
pixels of the RGB array inside `[BLUE_LOWER, BLUE_UPPER]`. -/
def detect_blue_pixels (f : Frame) : ℚ :=
  (f.pixels.countP rgbInBand : ℚ) / ((totalPixels f : ℕ) : ℚ) * 100

/-- OpenCV-convention 8-bit RGB→HSV conversion of one pixel
(H in 0..179, S and V in 0..255).  This definition follows the spec's
words — "convert to a hue-saturation-value color space" — and exists
only to compare the spec's description of `blue_ratio` with the source's
`detect_blue_pixels`, which performs no such conversion. -/
def rgbToHsv (p : Pixel) : Nat × Nat × Nat :=
  let r := p.1
  let g := p.2.1
  let b := p.2.2
  let v := max r (max g b)
  let m := min r (min g b)
  let d := v - m
  let s := if v = 0 then 0 else 255 * d / v
  let hI : ℤ :=
    if d = 0 then 0
    else if v = r then 30 * ((g : ℤ) - (b : ℤ)) / (d : ℤ)
    else if v = g then 60 + 30 * ((b : ℤ) - (r : ℤ)) / (d : ℤ)
    else 120 + 30 * ((r : ℤ) - (g : ℤ)) / (d : ℤ)
  let hN := (if hI < 0 then hI + 180 else hI).toNat
  (hN, s, v)

/-- The spec's inclusive (H, S, V) band: H∈[0,15], S∈[70,155], V∈[75,155]. -/
def hsvInBand (hsv : Nat × Nat × Nat) : Bool :=
  decide (hsv.1 ≤ 15) &&
  decide (70 ≤ hsv.2.1) && decide (hsv.2.1 ≤ 155) &&
  decide (75 ≤ hsv.2.2) && decide (hsv.2.2 ≤ 155)

/-- The blue ratio as the spec describes it (HSV conversion, then the
band test); for comparison with `detect_blue_pixels` only. -/
def blue_ratio_spec_hsv (f : Frame) : ℚ :=
  (f.pixels.countP (fun p => hsvInBand (rgbToHsv p)) : ℚ)
    / ((totalPixels f : ℕ) : ℚ) * 100

/-- The except-path of `ScreenMonitor.take_screenshot`:
`Image.new("RGB", (width, height), (0, 0, 0))`.  `Image.new` itself
raises `ValueError` for a negative dimension, and that exception
propagates to `take_screenshot`'s caller (modelled as `.error`);
otherwise the black frame is returned. -/
def fallbackNew (w h : ℤ) : Except Unit Frame :=
  if 0 ≤ w ∧ 0 ≤ h then Except.ok (blackFrame w.toNat h.toNat)
  else Except.error ()

/-- `ScreenMonitor.take_screenshot` from `monitor.py`.  The environment
argument is what the capture subsystem (`mss.grab` + the BGRX decode of
`Image.frombytes`) delivers for the requested region: `some data` is a
successfully grabbed pixel buffer, `none` is any exception inside the
`try` block.  The try-path produces an image exactly when the grab
succeeded with a buffer of the requested positive dimensions; any other
outcome falls to the except-path `fallbackNew`. -/
def take_screenshot (_x _y w h : ℤ) (env : Option (List Pixel)) :
    Except Unit Frame :=
  match env with
  | some data =>
      if hok : 0 < w ∧ 0 < h ∧ data.length = w.toNat * h.toNat then
        Except.ok ⟨w.toNat, h.toNat, data, hok.2.2⟩
      else fallbackNew w h
  | none => fallbackNew w h

/-- `MonitorConfig` from `config.py` (also standing in for the parsed
values of the GUI entry fields, which carry the same seven values).
Dimensions and thresholds are Python ints (`ℤ`); the blue threshold and
check interval are floats, modelled as `ℚ`. -/
structure MonitorConfig where
  x : ℤ
  y : ℤ
  width : ℤ
  height : ℤ
  whiteThreshold : ℤ
  blueThreshold : ℚ
  checkInterval : ℚ
deriving DecidableEq

/-- The default configuration from `config.py`
(`DEFAULT_CHECK_INTERVAL = 0.5`, `DEFAULT_BLUE_THRESHOLD = 60.0`). -/
def defaultConfig : MonitorConfig :=
  ⟨1535, 730, 275, 275, 200, 60, 1/2⟩

/-- `MIN_CONSECUTIVE_DETECTIONS` from `config.py`. -/
def MIN_CONSECUTIVE_DETECTIONS : Nat := 2

/-- `max_errors` from `monitor_screen` in `gui.py`. -/
def max_errors : Nat := 5

/-- The state carried across iterations of `monitor_screen`:
`self.consecutive_detections`, the local `error_count`, and the
`self.monitoring` flag that keeps the `while` loop running. -/
structure LoopState where
  consecutive : Nat
  errorCount : Nat
  monitoring : Bool
deriving DecidableEq

/-- State at entry of `monitor_screen`: `consecutive_detections = 0`,
`error_count = 0`, and `monitoring` just set to `True` by
`start_monitoring`. -/
def initState : LoopState := ⟨0, 0, true⟩

/-- Observable outcome of one loop cycle: whether
`audio_manager.play_alert_sound()` was invoked, and the total duration
slept before the next cycle. -/
structure CycleResult where
  alerted : Bool
  sleep : ℚ
deriving DecidableEq

/-- What one cycle of `monitor_screen` observes, at the granularity the
cycle's control flow branches on:
* `captureNone` — the `screenshot is None` sentinel branch (lines 432-440);
* `exnCapture` — an exception raised during the capture step, i.e. before
  the `error_count = 0` reset of line 443, handled by the outer
  `except` (lines 499-510);
* `frameInvalidExn` — capture succeeded (`error_count = 0` executed),
  the quality check reported invalid, and the `status_var.set` call of
  line 448 raised (e.g. a Tcl error from the background thread), handled
  by the outer `except`;
* `frameInvalid` — capture succeeded and the quality check reported the
  frame invalid (lines 447-450);
* `frameValid w b` — capture succeeded, quality valid, with
  `white_detected = w` and `blue_detected = b` (lines 452-497). -/
inductive CycleInput where
  | captureNone : CycleInput
  | exnCapture : CycleInput
  | frameInvalidExn : CycleInput
  | frameInvalid : CycleInput
  | frameValid : Bool → Bool → CycleInput
deriving DecidableEq

/-- Does the cycle input have both conditions detected
(`white_detected and blue_detected`)? -/
def bothDetected : CycleInput → Bool
  | CycleInput.frameValid w b => w && b
  | _ => false

/-- Does the cycle input reach the `else` of line 485 (frame valid but
not both conditions detected)? -/
def validNotBoth : CycleInput → Bool
  | CycleInput.frameValid w b => !(w && b)
  | _ => false

/-- One iteration of the `while self.monitoring` body of
`monitor_screen` (`gui.py` lines 425-510).  On budget exhaustion the
code sets the status, calls `stop_monitoring` — which sets
`self.monitoring = False` before its self-join raises — and returns, so
the iteration ends with no sleep and the loop terminal. -/
def monitorStep (cfg : MonitorConfig) (s : LoopState) :
    CycleInput → LoopState × CycleResult
  | CycleInput.captureNone =>
      let e := s.errorCount + 1
      if max_errors ≤ e then
        ({ s with errorCount := e, monitoring := false }, ⟨false, 0⟩)
      else ({ s with errorCount := e }, ⟨false, cfg.checkInterval⟩)
  | CycleInput.exnCapture =>
      let e := s.errorCount + 1
      if max_errors ≤ e then
        ({ s with errorCount := e, monitoring := false }, ⟨false, 0⟩)
      else ({ s with errorCount := e }, ⟨false, 1⟩)
  | CycleInput.frameInvalidExn =>
      let e := 0 + 1
      if max_errors ≤ e then
        ({ s with errorCount := e, monitoring := false }, ⟨false, 0⟩)
      else ({ s with errorCount := e }, ⟨false, 1⟩)
  | CycleInput.frameInvalid =>
      ({ s with errorCount := 0 }, ⟨false, cfg.checkInterval⟩)
  | CycleInput.frameValid w b =>
      if w && b then
        let c := s.consecutive + 1
        if MIN_CONSECUTIVE_DETECTIONS ≤ c then
          ({ s with errorCount := 0, consecutive := c },
           ⟨true, 2 + cfg.checkInterval⟩)
        else
          ({ s with errorCount := 0, consecutive := c },
           ⟨false, cfg.checkInterval⟩)
      else
        ({ s with errorCount := 0, consecutive := 0 },
         ⟨false, cfg.checkInterval⟩)

/-- Run of `monitor_screen` over a list of per-cycle observations; the
`while self.monitoring` guard stops consuming once monitoring is off. -/
def monitorRun (cfg : MonitorConfig) :
    LoopState → List CycleInput → LoopState × List CycleResult
  | s, [] => (s, [])
  | s, i :: rest =>
      if s.monitoring then
        let p := monitorStep cfg s i
        let q := monitorRun cfg p.1 rest
        (q.1, p.2 :: q.2)
      else (s, [])

/-- Number of cycles in which the alert sink was invoked. -/
def countAlerts (rs : List CycleResult) : Nat :=
  rs.countP (fun r => r.alerted)

/-- The data path of one exception-free cycle, composed from the real
capture and classifiers: `take_screenshot` (whose raise is the outer
`except`, i.e. `exnCapture`), then `analyze_screenshot_quality`, then
`white_detected = white_percentage > 0.1` and
`blue_detected = blue_percentage >= blue_threshold` (lines 429-465).
There is no case producing `captureNone`, because both return paths of
`take_screenshot` return an image. -/
def cycleInputOfEnv (cfg : MonitorConfig) (env : Option (List Pixel)) :
    CycleInput :=
  match take_screenshot cfg.x cfg.y cfg.width cfg.height env with
  | Except.error _ => CycleInput.exnCapture
  | Except.ok f =>
      if (analyze_screenshot_quality f).1 then
        CycleInput.frameValid
          (decide ((1 : ℚ)/10 < detect_white_pixels f cfg.whiteThreshold))
          (decide (cfg.blueThreshold ≤ detect_blue_pixels f))
      else CycleInput.frameInvalid

/-- `validate_inputs` from `gui.py` (lines 180-204), over the parsed
entry values: positive dimensions, white threshold in 0..255, blue
threshold in 0..100, positive interval.  (A non-numeric entry raises
`ValueError` before the range checks and also yields `False`.) -/
def validate_inputs (e : MonitorConfig) : Bool :=
  decide (0 < e.width) && decide (0 < e.height) &&
  decide (0 ≤ e.whiteThreshold) && decide (e.whiteThreshold ≤ 255) &&
  decide (0 ≤ e.blueThreshold) && decide (e.blueThreshold ≤ 100) &&
  decide (0 < e.checkInterval)

/-- Environment of a `validate_configuration` probe: the virtual screen
size reported by `get_screen_size` (its failure path already substitutes
1920×1080) and what the capture subsystem delivers for the test grab. -/
structure ProbeEnv where
  screenW : ℤ
  screenH : ℤ
  capture : Option (List Pixel)

/-- `validate_configuration` from `gui.py` (lines 206-234): the
coordinate bounds check, then a test capture of
`min(width, 100) × min(height, 100)`, then the quality check.  Any
exception is caught and reported as invalid.  (The `test_screenshot is
None` branch never fires, since `take_screenshot` never returns None.)
Note: it checks no threshold ranges and no dimension positivity. -/
def validate_configuration (env : ProbeEnv) (cfg : MonitorConfig) : Bool :=
  if cfg.x < -env.screenW * 2 ∨ env.screenW * 3 < cfg.x ∨
     cfg.y < -env.screenH ∨ env.screenH * 2 < cfg.y then false
  else
    match take_screenshot cfg.x cfg.y (min cfg.width 100) (min cfg.height 100)
        env.capture with
    | Except.error _ => false
    | Except.ok f => (analyze_screenshot_quality f).1

/-- The GUI state relevant to starting a session: the parsed values of
the entry fields, the stored `self.config`, and `self.monitoring`. -/
structure GuiState where
  entries : MonitorConfig
  config : MonitorConfig
  monitoring : Bool

/-- `update_monitor_area` from `gui.py` (lines 236-257): if
`validate_inputs` fails it shows an error box and returns with the
stored config unchanged; otherwise it copies the entries into
`self.config`. -/
def update_monitor_area (g : GuiState) : GuiState :=
  if validate_inputs g.entries then { g with config := g.entries } else g

/-- `start_monitoring` from `gui.py` (lines 512-530): from a
non-monitoring state, run `validate_configuration` on the *stored*
config; on failure show an error and stay idle; on success call
`update_monitor_area` (whose validation failure does not stop the
start) and set `self.monitoring = True`, starting the loop thread. -/
def start_monitoring (env : ProbeEnv) (g : GuiState) : GuiState :=
  if g.monitoring then g
  else if validate_configuration env g.config then
    let g' := update_monitor_area g
    { g' with monitoring := true }
  else g


/-! ## Helper lemmas -/

theorem countP_replicate_eq (p : Pixel → Bool) (n : Nat) (a : Pixel) :
    (List.replicate n a).countP p = if p a then n else 0 := by
  induction n with
  | zero => simp
  | succ n ih =>
      simp [List.replicate_succ, List.countP_cons, ih]
      split <;> simp

theorem countP_le_of_imp (p q : Pixel → Bool)
    (h : ∀ a, p a = true → q a = true) :
    ∀ l : List Pixel, l.countP p ≤ l.countP q := by
  intro l
  induction l with
  | nil => simp
  | cons a l ih =>
      simp only [List.countP_cons]
      by_cases hp : p a = true
      · simp [hp, h a hp]; omega
      · have hp' : p a = false := by simpa using hp
        simp [hp']
        split <;> omega

theorem analyze_blackFrame (w h : Nat) (hw : 0 < w) (hh : 0 < h) :
    analyze_screenshot_quality (blackFrame w h) = (false, 100) := by
  have hwh : 0 < w * h := Nat.mul_pos hw hh
  have hq : ((w * h : ℕ) : ℚ) ≠ 0 := by
    exact_mod_cast Nat.pos_iff_ne_zero.mp hwh
  simp only [analyze_screenshot_quality, blackFrame]
  rw [if_neg (by omega)]
  have hcount : (List.replicate (w * h) ((0 : ℕ), (0 : ℕ), (0 : ℕ))).countP
      isNearBlack = w * h := by
    rw [countP_replicate_eq]
    simp [isNearBlack]
  simp only [hcount]
  rw [div_self hq]
  norm_num [BLACK_PIXEL_WARNING_THRESHOLD]

theorem analyze_whiteFrame (w h : Nat) (hw : 0 < w) (hh : 0 < h) :
    analyze_screenshot_quality (whiteFrame w h) = (true, 0) := by
  simp only [analyze_screenshot_quality, whiteFrame]
  rw [if_neg (by positivity)]
  have hcount : (List.replicate (w * h) ((255 : ℕ), (255 : ℕ), (255 : ℕ))).countP
      isNearBlack = 0 := by
    rw [countP_replicate_eq]
    simp [isNearBlack]
  simp only [hcount]
  norm_num [BLACK_PIXEL_WARNING_THRESHOLD]

/-! ## C7 — screenshot quality analysis -/

/-- C7: `analyze_screenshot_quality` counts a pixel as black exactly when
every channel is below 10, sets `black_percentage =
black_pixels / total_pixels * 100`, and `is_valid` exactly when the
percentage is at most 95; on an all-black frame it returns
`(false, 100)` and on an all-white frame `(true, 0)`. -/
theorem C7_quality (w h : Nat) (f : Frame) (hw : 0 < w) (hh : 0 < h) :
    analyze_screenshot_quality (blackFrame w h) = (false, 100) ∧
    analyze_screenshot_quality (whiteFrame w h) = (true, 0) ∧
    (0 < totalPixels f →
      (analyze_screenshot_quality f).2 =
        (f.pixels.countP isNearBlack : ℚ) / ((totalPixels f : ℕ) : ℚ) * 100 ∧
      ((analyze_screenshot_quality f).1 = true ↔
        (analyze_screenshot_quality f).2 ≤ 95)) ∧
    (∀ p : Pixel, isNearBlack p = true ↔
      (p.1 < 10 ∧ p.2.1 < 10 ∧ p.2.2 < 10)) := by
  refine ⟨analyze_blackFrame w h hw hh, analyze_whiteFrame w h hw hh, ?_, ?_⟩
  · intro hf
    have hne : ¬ f.width * f.height = 0 := by
      simpa [totalPixels] using Nat.pos_iff_ne_zero.mp hf
    constructor
    · simp [analyze_screenshot_quality, hne, totalPixels]
    · simp [analyze_screenshot_quality, hne, BLACK_PIXEL_WARNING_THRESHOLD]
  · intro p
    simp [isNearBlack, and_assoc]

/-- Witness for C7 at a concrete 2×3 frame. -/
theorem C7_witness :
    analyze_screenshot_quality (blackFrame 2 3) = (false, 100) :=
  (C7_quality 2 3 (blackFrame 2 3) (by decide) (by decide)).1

/-! ## C9 — monotonicity of the white ratio in the threshold -/

/-- C9: for a fixed frame, `detect_white_pixels` is monotonically
non-increasing in the threshold.  (Stated for all integer thresholds
`t1 ≤ t2`, which covers the claim's range 0..255.) -/
theorem C9_monotone (f : Frame) (t1 t2 : ℤ) (h : t1 ≤ t2) :
    detect_white_pixels f t2 ≤ detect_white_pixels f t1 := by
  unfold detect_white_pixels
  have hc : f.pixels.countP (fun p => decide (t2 ≤ (grayOf p : ℤ))) ≤
      f.pixels.countP (fun p => decide (t1 ≤ (grayOf p : ℤ))) := by
    apply countP_le_of_imp
    intro a ha
    simp only [decide_eq_true_eq] at ha ⊢
    omega
  have hcq : ((f.pixels.countP (fun p => decide (t2 ≤ (grayOf p : ℤ)))) : ℚ) ≤
      ((f.pixels.countP (fun p => decide (t1 ≤ (grayOf p : ℤ)))) : ℚ) := by
    exact_mod_cast hc
  rcases eq_or_lt_of_le (by positivity : (0:ℚ) ≤ ((totalPixels f : ℕ) : ℚ)) with
    hT | hT
  · rw [← hT]
    simp
  · have := (div_le_div_iff_of_pos_right hT).mpr hcq
    exact mul_le_mul_of_nonneg_right this (by norm_num)

/-- Witness for C9: thresholds 200 ≤ 255 on a concrete white frame. -/
theorem C9_witness :
    detect_white_pixels (whiteFrame 1 1) 255 ≤
      detect_white_pixels (whiteFrame 1 1) 200 :=
  C9_monotone (whiteFrame 1 1) 200 255 (by decide)

/-! ## C1 — the blue ratio band -/

/-- A one-pixel frame whose pixel (10, 100, 100) lies inside the RGB band
`[BLUE_LOWER, BLUE_UPPER]` but whose HSV image (90, 229, 100) lies far
outside the spec's H∈[0,15] band. -/
def cxFrame : Frame := ⟨1, 1, [(10, 100, 100)], rfl⟩

/-- C1 counterexample: `cxFrame` contains no pixel inside the spec's
(H,S,V) band, yet `detect_blue_pixels` returns 100, not 0: the source
applies the band to the RGB channels without any HSV conversion. -/
theorem C1_counterexample :
    (∀ p ∈ cxFrame.pixels, hsvInBand (rgbToHsv p) = false) ∧
    rgbToHsv (10, 100, 100) = (90, 229, 100) ∧
    blue_ratio_spec_hsv cxFrame = 0 ∧
    detect_blue_pixels cxFrame = 100 := by
  refine ⟨by decide, by decide, ?_, ?_⟩
  · have hc : cxFrame.pixels.countP (fun p => hsvInBand (rgbToHsv p)) = 0 := by
      decide
    simp [blue_ratio_spec_hsv, hc]
  · have hc : cxFrame.pixels.countP rgbInBand = 1 := by decide
    have ht : totalPixels cxFrame = 1 := by decide
    rw [detect_blue_pixels, hc, ht]
    norm_num

/-- C1 amended: `detect_blue_pixels` applies the inclusive band
R∈[0,15], G∈[70,155], B∈[75,155] directly to the RGB channels (no
color-space conversion) and returns the percentage of pixels in that
band; in particular it returns 0 when no pixel lies in the RGB band and
100 when every pixel does. -/
theorem C1_amended (f : Frame) (h : 0 < totalPixels f) :
    detect_blue_pixels f =
      (f.pixels.countP rgbInBand : ℚ) / ((totalPixels f : ℕ) : ℚ) * 100 ∧
    ((∀ p ∈ f.pixels, rgbInBand p = false) → detect_blue_pixels f = 0) ∧
    ((∀ p ∈ f.pixels, rgbInBand p = true) → detect_blue_pixels f = 100) := by
  refine ⟨rfl, ?_, ?_⟩
  · intro hnone
    have hc : f.pixels.countP rgbInBand = 0 := by
      rw [List.countP_eq_zero]
      intro a ha
      simp [hnone a ha]
    simp [detect_blue_pixels, hc]
  · intro hall
    have hc : f.pixels.countP rgbInBand = f.pixels.length := by
      rw [List.countP_eq_length]
      exact hall
    have hlen : f.pixels.length = totalPixels f := f.wf
    have hne : ((totalPixels f : ℕ) : ℚ) ≠ 0 := by
      exact_mod_cast Nat.pos_iff_ne_zero.mp h
    simp only [detect_blue_pixels, hc, hlen]
    rw [div_self hne]
    norm_num

/-- Witness for C1 at the concrete in-band frame. -/
theorem C1_witness : detect_blue_pixels cxFrame = 100 :=
  (C1_amended cxFrame (by decide)).2.2 (by decide)

/-! ## Loop lemmas -/

theorem monitorRun_not (cfg : MonitorConfig) (s : LoopState)
    (l : List CycleInput) (h : s.monitoring = false) :
    monitorRun cfg s l = (s, []) := by
  cases l <;> simp [monitorRun, h]

theorem monitorRun_cons (cfg : MonitorConfig) (s : LoopState)
    (i : CycleInput) (rest : List CycleInput) (h : s.monitoring = true) :
    monitorRun cfg s (i :: rest) =
      ((monitorRun cfg (monitorStep cfg s i).1 rest).1,
       (monitorStep cfg s i).2 :: (monitorRun cfg (monitorStep cfg s i).1 rest).2) := by
  simp [monitorRun, h]

/-- The alert sink is invoked only in a cycle where both conditions are
detected. -/
theorem step_alerted_false (cfg : MonitorConfig) (s : LoopState)
    (i : CycleInput) (h : bothDetected i = false) :
    (monitorStep cfg s i).2.alerted = false := by
  cases i with
  | captureNone => simp only [monitorStep]; split <;> rfl
  | exnCapture => simp only [monitorStep]; split <;> rfl
  | frameInvalidExn => simp only [monitorStep]; split <;> rfl
  | frameInvalid => rfl
  | frameValid w b =>
      simp only [bothDetected] at h
      simp [monitorStep, h]

/-- In a run over cycles none of which detects both conditions, no cycle
invokes the alert sink. -/
theorem run_alerted_false (cfg : MonitorConfig) :
    ∀ (l : List CycleInput) (s : LoopState),
      (∀ i ∈ l, bothDetected i = false) →
      ∀ r ∈ (monitorRun cfg s l).2, r.alerted = false := by
  intro l
  induction l with
  | nil => intro s _ r hr; simp [monitorRun] at hr
  | cons i rest ih =>
      intro s h r hr
      by_cases hm : s.monitoring = true
      · rw [monitorRun_cons cfg s i rest hm] at hr
        simp only [List.mem_cons] at hr
        rcases hr with hr | hr
        · rw [hr]
          exact step_alerted_false cfg s i (h i (List.mem_cons_self i rest))
        · exact ih (monitorStep cfg s i).1
            (fun j hj => h j (List.mem_cons_of_mem i hj)) r hr
      · have hm' : s.monitoring = false := by simpa using hm
        rw [monitorRun_not cfg s _ hm'] at hr
        simp at hr

/-- A run of consecutive hard-failing cycles (sentinel or
capture-step exception) long enough to exhaust the remaining error
budget ends with monitoring off. -/
theorem run_hard_stops (cfg : MonitorConfig) :
    ∀ (l : List CycleInput) (s : LoopState),
      (∀ i ∈ l, i = CycleInput.captureNone ∨ i = CycleInput.exnCapture) →
      s.monitoring = true →
      max_errors ≤ s.errorCount + l.length →
      1 ≤ l.length →
      (monitorRun cfg s l).1.monitoring = false := by
  intro l
  induction l with
  | nil => intro s _ _ _ hlen; simp at hlen
  | cons i rest ih =>
      intro s hf hm hbudget _
      rw [monitorRun_cons cfg s i rest hm]
      have hstep : (monitorStep cfg s i).1.errorCount = s.errorCount + 1 ∧
          (monitorStep cfg s i).1.monitoring =
            (if max_errors ≤ s.errorCount + 1 then false else s.monitoring) := by
        rcases hf i (List.mem_cons_self i rest) with hi | hi <;>
          · subst hi
            simp only [monitorStep]
            split <;> simp_all
      by_cases hex : max_errors ≤ s.errorCount + 1
      · have hmon' : (monitorStep cfg s i).1.monitoring = false := by
          rw [hstep.2, if_pos hex]
        rw [monitorRun_not cfg _ rest hmon']
        exact hmon'
      · have hmon' : (monitorStep cfg s i).1.monitoring = true := by
          rw [hstep.2, if_neg hex]; exact hm
        have hbudget' : max_errors ≤ (monitorStep cfg s i).1.errorCount + rest.length := by
          rw [hstep.1]
          simp only [List.length_cons] at hbudget
          omega
        have hlen' : 1 ≤ rest.length := by
          rw [hstep.1] at hbudget'
          simp only [max_errors] at hex hbudget' ⊢
          omega
        exact ih (monitorStep cfg s i).1
          (fun j hj => hf j (List.mem_cons_of_mem i hj)) hmon' hbudget' hlen'

/-! ## C2 — debounce -/

/-- C2: from a fresh session, a synthetic run where both conditions hold
for exactly one cycle and then never again invokes the alert sink zero
times; a run where both conditions hold for exactly two consecutive
cycles and then never again invokes it exactly once, at the second
cycle. -/
theorem C2_debounce (cfg : MonitorConfig) (rest1 rest2 : List CycleInput)
    (h1 : ∀ i ∈ rest1, bothDetected i = false)
    (h2 : ∀ i ∈ rest2, bothDetected i = false) :
    countAlerts (monitorRun cfg initState
      (CycleInput.frameValid true true :: rest1)).2 = 0 ∧
    countAlerts (monitorRun cfg initState
      (CycleInput.frameValid true true ::
       CycleInput.frameValid true true :: rest2)).2 = 1 ∧
    ((monitorRun cfg initState
      (CycleInput.frameValid true true ::
       CycleInput.frameValid true true :: rest2)).2.map
        (fun r => r.alerted)).take 2 = [false, true] := by
  have hstep1 : monitorStep cfg initState (CycleInput.frameValid true true) =
      (⟨1, 0, true⟩, ⟨false, cfg.checkInterval⟩) := rfl
  have hstep2 : monitorStep cfg ⟨1, 0, true⟩ (CycleInput.frameValid true true) =
      (⟨2, 0, true⟩, ⟨true, 2 + cfg.checkInterval⟩) := rfl
  have hcount1 : countAlerts (monitorRun cfg ⟨1, 0, true⟩ rest1).2 = 0 := by
    simp only [countAlerts]
    rw [List.countP_eq_zero]
    intro r hr
    simp [run_alerted_false cfg rest1 ⟨1, 0, true⟩ h1 r hr]
  have hcount2 : countAlerts (monitorRun cfg ⟨2, 0, true⟩ rest2).2 = 0 := by
    simp only [countAlerts]
    rw [List.countP_eq_zero]
    intro r hr
    simp [run_alerted_false cfg rest2 ⟨2, 0, true⟩ h2 r hr]
  refine ⟨?_, ?_, ?_⟩
  · rw [monitorRun_cons cfg initState _ rest1 rfl, hstep1]
    simp only [countAlerts, List.countP_cons] at *
    simp [hcount1]
  · rw [monitorRun_cons cfg initState _ _ rfl, hstep1,
        monitorRun_cons cfg _ _ rest2 rfl, hstep2]
    simp only [countAlerts, List.countP_cons] at *
    simp [hcount2]
  · rw [monitorRun_cons cfg initState _ _ rfl, hstep1,
        monitorRun_cons cfg _ _ rest2 rfl, hstep2]
    simp

/-- Witness for C2: a concrete two-detection run alerts exactly once. -/
theorem C2_witness :
    countAlerts (monitorRun defaultConfig initState
      [CycleInput.frameValid true true, CycleInput.frameValid true true,
       CycleInput.frameInvalid]).2 = 1 :=
  (C2_debounce defaultConfig [] [CycleInput.frameInvalid]
    (by simp) (by decide)).2.1

/-! ## C3 — sleeps per cycle -/

/-- C3 counterexample: in the cycle in which the alert fires, the loop
sleeps the 2-second cool-down of line 484 *and then also* the regular
`check_interval` sleep of line 497 (total 2.5s with the default 0.5s
interval) — not the cool-down alone, so the claimed "only inter-cycle
sleep is the 2-second cool-down" is false. -/
theorem C3_counterexample :
    (monitorStep defaultConfig ⟨1, 0, true⟩
      (CycleInput.frameValid true true)).2.alerted = true ∧
    (monitorStep defaultConfig ⟨1, 0, true⟩
      (CycleInput.frameValid true true)).2.sleep = 5/2 ∧
    ¬ (monitorStep defaultConfig ⟨1, 0, true⟩
      (CycleInput.frameValid true true)).2.sleep = 2 := by
  refine ⟨rfl, ?_, ?_⟩
  · show 2 + defaultConfig.checkInterval = 5/2
    norm_num [defaultConfig]
  · show ¬ 2 + defaultConfig.checkInterval = 2
    norm_num [defaultConfig]

/-- C3 amended: in every alert-firing cycle the loop sleeps the
2-second cool-down followed by the regular `check_interval` sleep
(total `2 + check_interval`); in every other cycle that completes
without an exception and without exhausting the error budget, the loop
sleeps exactly `check_interval`. -/
theorem C3_amended (cfg : MonitorConfig) (s : LoopState) (i : CycleInput)
    (hm : s.monitoring = true) :
    ((monitorStep cfg s i).2.alerted = true →
      (monitorStep cfg s i).2.sleep = 2 + cfg.checkInterval) ∧
    ((monitorStep cfg s i).2.alerted = false →
      ¬ i = CycleInput.exnCapture → ¬ i = CycleInput.frameInvalidExn →
      (monitorStep cfg s i).1.monitoring = true →
      (monitorStep cfg s i).2.sleep = cfg.checkInterval) := by
  cases i with
  | captureNone =>
      constructor
      · intro ha
        have : (monitorStep cfg s CycleInput.captureNone).2.alerted = false := by
          simp only [monitorStep]; split <;> rfl
        simp [this] at ha
      · intro _ _ _ hmon
        by_cases hb : max_errors ≤ s.errorCount + 1
        · simp only [monitorStep, if_pos hb] at hmon
          simp at hmon
        · simp only [monitorStep, if_neg hb]
  | exnCapture =>
      constructor
      · intro ha
        have : (monitorStep cfg s CycleInput.exnCapture).2.alerted = false := by
          simp only [monitorStep]; split <;> rfl
        simp [this] at ha
      · intro _ hne _ _
        exact absurd rfl hne
  | frameInvalidExn =>
      constructor
      · intro ha
        have : (monitorStep cfg s CycleInput.frameInvalidExn).2.alerted = false := by
          simp only [monitorStep]; split <;> rfl
        simp [this] at ha
      · intro _ _ hne _
        exact absurd rfl hne
  | frameInvalid =>
      exact ⟨fun ha => by simp [monitorStep] at ha, fun _ _ _ _ => rfl⟩
  | frameValid w b =>
      by_cases hwb : (w && b) = true
      · by_cases hc : MIN_CONSECUTIVE_DETECTIONS ≤ s.consecutive + 1
        · constructor
          · intro _
            simp [monitorStep, hwb, hc]
          · intro ha
            simp [monitorStep, hwb, hc] at ha
        · constructor
          · intro ha
            simp [monitorStep, hwb, hc] at ha
          · intro _ _ _ _
            simp [monitorStep, hwb, hc]
      · have hwb' : (w && b) = false := by simpa using hwb
        constructor
        · intro ha
          simp [monitorStep, hwb'] at ha
        · intro _ _ _ _
          simp [monitorStep, hwb']

/-- Witness for C3 at the alert-firing cycle. -/
theorem C3_witness :
    (monitorStep defaultConfig ⟨1, 0, true⟩
      (CycleInput.frameValid true true)).2.sleep =
      2 + defaultConfig.checkInterval :=
  (C3_amended defaultConfig ⟨1, 0, true⟩
    (CycleInput.frameValid true true) rfl).1 rfl

/-! ## C4 — error budget -/

/-- C4 counterexample: five consecutive failing cycles in which the
capture succeeds (resetting `error_count` to 0 at line 443) and the
cycle then raises — e.g. capture delivers a black frame and the
quality-warning `status_var.set` of line 448 raises — never exhaust the
budget: `error_count` ends each cycle at 1 and the loop stays Running,
contradicting the claim that any five consecutive failing cycles leave
the Running state. -/
theorem C4_counterexample :
    (monitorRun defaultConfig initState
      (List.replicate 5 CycleInput.frameInvalidExn)).1.monitoring = true ∧
    (monitorRun defaultConfig initState
      (List.replicate 5 CycleInput.frameInvalidExn)).1.errorCount = 1 := by
  exact ⟨rfl, rfl⟩

/-- C4 amended: if `max_errors = 5` consecutive cycles fail with the
capture sentinel or with an exception raised during the capture step
(before the post-capture `error_count = 0` reset of line 443), the loop
leaves the Running state, and the alert sink is never invoked during
such a run.  (An exception raised after the reset re-zeroes the budget
first, so such failing cycles alone never exhaust it.) -/
theorem C4_amended (cfg : MonitorConfig) (s : LoopState)
    (l : List CycleInput) (hm : s.monitoring = true)
    (hlen : l.length = max_errors)
    (hf : ∀ i ∈ l, i = CycleInput.captureNone ∨ i = CycleInput.exnCapture) :
    (monitorRun cfg s l).1.monitoring = false ∧
    ∀ r ∈ (monitorRun cfg s l).2, r.alerted = false := by
  constructor
  · apply run_hard_stops cfg l s hf hm
    · rw [hlen]; simp [max_errors]
    · rw [hlen]; simp [max_errors]
  · apply run_alerted_false
    intro i hi
    rcases hf i hi with h | h <;> subst h <;> rfl

/-- Witness for C4: five sentinel failures from a fresh session stop
the loop. -/
theorem C4_witness :
    (monitorRun defaultConfig initState
      (List.replicate 5 CycleInput.captureNone)).1.monitoring = false :=
  (C4_amended defaultConfig initState
    (List.replicate 5 CycleInput.captureNone) rfl rfl (by decide)).1

/-! ## C5 — consecutive-detection counter -/

/-- C5 counterexample: a cycle whose quality check reports the frame
invalid does not reset `consecutive_detections` (line 450's `continue`
skips the reset): after a detection cycle followed by a quality-invalid
cycle the counter is still 1, not 0 as the claim requires. -/
theorem C5_counterexample :
    (monitorRun defaultConfig initState
      [CycleInput.frameValid true true,
       CycleInput.frameInvalid]).1.consecutive = 1 ∧
    ¬ (monitorRun defaultConfig initState
      [CycleInput.frameValid true true,
       CycleInput.frameInvalid]).1.consecutive = 0 := by
  exact ⟨rfl, by decide⟩

/-- C5 amended: `consecutive_detections` is incremented exactly in
cycles where both conditions are detected, reset to 0 exactly in cycles
where the frame passes the quality check but the two conditions are not
both detected, and left unchanged by capture-failure, quality-invalid
and exception cycles. -/
theorem C5_amended (cfg : MonitorConfig) (s : LoopState) (i : CycleInput) :
    (monitorStep cfg s i).1.consecutive =
      (if bothDetected i then s.consecutive + 1
       else if validNotBoth i then 0
       else s.consecutive) := by
  cases i with
  | captureNone =>
      simp only [monitorStep, bothDetected, validNotBoth]
      split <;> simp
  | exnCapture =>
      simp only [monitorStep, bothDetected, validNotBoth]
      split <;> simp
  | frameInvalidExn =>
      simp only [monitorStep, bothDetected, validNotBoth]
      split <;> simp
  | frameInvalid => simp [monitorStep, bothDetected, validNotBoth]
  | frameValid w b =>
      cases hwb : (w && b) <;>
        simp only [monitorStep, bothDetected, validNotBoth, hwb] <;>
        simp <;> split <;> rfl

/-! ## C8 — capture contract -/

/-- For positive requested dimensions, `take_screenshot` always
produces an image (the except-path `Image.new` cannot raise). -/
theorem take_screenshot_ok (x y w h : ℤ) (env : Option (List Pixel))
    (hw : 0 < w) (hh : 0 < h) :
    ∃ fr, take_screenshot x y w h env = Except.ok fr ∧
      fr.width = w.toNat ∧ fr.height = h.toNat := by
  have hfb : fallbackNew w h = Except.ok (blackFrame w.toNat h.toNat) := by
    rw [fallbackNew, if_pos ⟨le_of_lt hw, le_of_lt hh⟩]
  cases env with
  | none =>
      exact ⟨blackFrame w.toNat h.toNat, by simp [take_screenshot, hfb],
        rfl, rfl⟩
  | some data =>
      by_cases hok : 0 < w ∧ 0 < h ∧ data.length = w.toNat * h.toNat
      · exact ⟨⟨w.toNat, h.toNat, data, hok.2.2⟩,
          by simp [take_screenshot, hok], rfl, rfl⟩
      · exact ⟨blackFrame w.toNat h.toNat,
          by simp [take_screenshot, hok, hfb], rfl, rfl⟩

/-- C8: for every region with positive width and height,
`take_screenshot` never raises to its caller and returns a frame of
exactly the requested dimensions; when the underlying capture fails it
returns the all-black fallback frame of those dimensions. -/
theorem C8_capture (x y w h : ℤ) (env : Option (List Pixel))
    (hw : 0 < w) (hh : 0 < h) :
    (∃ fr, take_screenshot x y w h env = Except.ok fr ∧
      (fr.width : ℤ) = w ∧ (fr.height : ℤ) = h) ∧
    (env = none →
      take_screenshot x y w h env = Except.ok (blackFrame w.toNat h.toNat) ∧
      ∀ p ∈ (blackFrame w.toNat h.toNat).pixels, p = (0, 0, 0)) := by
  constructor
  · obtain ⟨fr, hfr, hfw, hfh⟩ := take_screenshot_ok x y w h env hw hh
    refine ⟨fr, hfr, ?_, ?_⟩
    · rw [hfw]
      exact Int.toNat_of_nonneg (le_of_lt hw)
    · rw [hfh]
      exact Int.toNat_of_nonneg (le_of_lt hh)
  · intro henv
    subst henv
    have hfb : fallbackNew w h = Except.ok (blackFrame w.toNat h.toNat) := by
      rw [fallbackNew, if_pos ⟨le_of_lt hw, le_of_lt hh⟩]
    constructor
    · simpa [take_screenshot] using hfb
    · intro p hp
      simp only [blackFrame] at hp
      exact List.eq_of_mem_replicate hp

/-- Witness for C8: a failed 1×1 capture yields the 1×1 black frame. -/
theorem C8_witness :
    take_screenshot 0 0 1 1 none = Except.ok (blackFrame 1 1) :=
  ((C8_capture 0 0 1 1 none (by decide) (by decide)).2 rfl).1

/-! ## C10 — the capture-failure sentinel branch is unreachable -/

/-- C10: for a validated region (positive dimensions), the cycle's data
path never produces the `screenshot is None` sentinel (both return
paths of `take_screenshot` return an image); the cycle following any
capture delivery — including an outright capture failure, which arrives
as the black fallback frame, is rejected by the quality check and taken
by the quality-invalid branch — ends with `error_count = 0`; among all
cycle shapes, only exception cycles (and the unreachable sentinel
branch) leave a nonzero `error_count`. -/
theorem C10_sentinel_unreachable (cfg : MonitorConfig)
    (env : Option (List Pixel)) (s : LoopState)
    (hw : 0 < cfg.width) (hh : 0 < cfg.height) :
    ¬ cycleInputOfEnv cfg env = CycleInput.captureNone ∧
    (monitorStep cfg s (cycleInputOfEnv cfg env)).1.errorCount = 0 ∧
    (env = none → cycleInputOfEnv cfg env = CycleInput.frameInvalid) ∧
    (∀ i, ¬ (monitorStep cfg s i).1.errorCount = 0 →
      i = CycleInput.captureNone ∨ i = CycleInput.exnCapture ∨
      i = CycleInput.frameInvalidExn) := by
  obtain ⟨fr, hfr, hfw, hfh⟩ :=
    take_screenshot_ok cfg.x cfg.y cfg.width cfg.height env hw hh
  have hshape : cycleInputOfEnv cfg env =
      (if (analyze_screenshot_quality fr).1 then
        CycleInput.frameValid
          (decide ((1 : ℚ)/10 < detect_white_pixels fr cfg.whiteThreshold))
          (decide (cfg.blueThreshold ≤ detect_blue_pixels fr))
       else CycleInput.frameInvalid) := by
    simp [cycleInputOfEnv, hfr]
  have hfv : ∀ w b : Bool,
      (monitorStep cfg s (CycleInput.frameValid w b)).1.errorCount = 0 := by
    intro w b
    by_cases hwb : (w && b) = true
    · simp only [monitorStep, if_pos hwb]
      split <;> rfl
    · simp only [monitorStep, if_neg hwb]
  refine ⟨?_, ?_, ?_, ?_⟩
  · rw [hshape]
    split <;> simp
  · rw [hshape]
    split
    · exact hfv _ _
    · rfl
  · intro henv
    subst henv
    have hfb : fallbackNew cfg.width cfg.height =
        Except.ok (blackFrame cfg.width.toNat cfg.height.toNat) := by
      rw [fallbackNew, if_pos ⟨le_of_lt hw, le_of_lt hh⟩]
    have hw' : 0 < cfg.width.toNat := by omega
    have hh' : 0 < cfg.height.toNat := by omega
    have hq : analyze_screenshot_quality
        (blackFrame cfg.width.toNat cfg.height.toNat) = (false, 100) :=
      analyze_blackFrame _ _ hw' hh'
    simp [cycleInputOfEnv, take_screenshot, hfb, hq]
  · intro i hne
    cases i with
    | captureNone => exact Or.inl rfl
    | exnCapture => exact Or.inr (Or.inl rfl)
    | frameInvalidExn => exact Or.inr (Or.inr rfl)
    | frameInvalid => exact absurd rfl hne
    | frameValid w b => exact absurd (hfv w b) hne

/-- Witness for C10: a failed capture with the default (validated)
region is handled by the quality-invalid branch. -/
theorem C10_witness :
    cycleInputOfEnv defaultConfig none = CycleInput.frameInvalid :=
  (C10_sentinel_unreachable defaultConfig none initState
    (by decide) (by decide)).2.2.1 rfl

/-! ## C6 — configuration validation before Running -/

/-- Parsed entry values / stored configuration with an out-of-range
white threshold (300 ∉ 0..255) but valid coordinates and dimensions.
Such a configuration is reachable: `load_config_from_file` performs no
range validation on the loaded JSON fields. -/
def g6entries : MonitorConfig := ⟨100, 100, 5, 5, 300, 60, 1⟩

/-- GUI state holding the invalid configuration, not yet monitoring. -/
def g6 : GuiState := ⟨g6entries, g6entries, false⟩

/-- A probe environment in which the live-configuration probe passes: a
1920×1080 virtual screen and a capture subsystem delivering an all-white
buffer for the 5×5 test region. -/
def env6 : ProbeEnv := ⟨1920, 1080, some (List.replicate 25 (255, 255, 255))⟩

/-- C6: evaluation of `start_monitoring` at a configuration whose
white threshold 300 is outside 0..255: `validate_inputs` rejects the
values, yet `start_monitoring` — which consults only
`validate_configuration`, a probe that checks no threshold ranges, and
ignores the failure of the `validate_inputs` call inside
`update_monitor_area` — still sets `monitoring` to true and starts the
loop thread, so the session enters Running with the invalid
configuration instead of staying Idle. -/
theorem C6_code_bug_eval :
    validate_inputs g6.entries = false ∧
    ¬ (g6.config.whiteThreshold ≤ 255) ∧
    (start_monitoring env6 g6).monitoring = true := by
  have hq : analyze_screenshot_quality (whiteFrame 5 5) = (true, 0) :=
    analyze_whiteFrame 5 5 (by norm_num) (by norm_num)
  have hvc : validate_configuration env6 g6entries = true := by
    show (analyze_screenshot_quality (whiteFrame 5 5)).1 = true
    rw [hq]
  refine ⟨by decide, by decide, ?_⟩
  have hvc' : validate_configuration env6 g6.config = true := hvc
  simp only [start_monitoring]
  rw [show g6.monitoring = false from rfl]
  simp only [Bool.false_eq_true, if_false]
  rw [hvc']
  simp [update_monitor_area]
